import Mathlib

/-!
Verification development for `dashboard_yodeck.py` (DashboardPantalla).

The Python source is shallowly embedded: pandas DataFrames become lists of
records, float arithmetic becomes exact rational arithmetic (`ℚ`), string
timestamps become seconds-since-epoch (`ℤ`) with calendar bucketing computed
by the standard civil-from-days algorithm, and `YYYY-MM-DD` date strings are
represented by their parsed day number (`Option ℤ`, `none` standing for an
unparsable string).  pandas group keys are enumerated in `dedup` order rather
than sorted order: no property below depends on the row order of a grouped
output table.
-/

namespace Dashboard

/-- `PRECIO_POR_CLIENTE = 15000`, the fixed per-client monthly price. -/
def precioPorCliente : ℚ := 15000

/-- The literal characters of `"cliente"`, used by the regexes and the
`startswith` check. -/
def listaCliente : List Char := ['c', 'l', 'i', 'e', 'n', 't', 'e']

/-- `re.search(r'(cliente\d+)', s)` on a character list: find the leftmost
position where the literal `cliente` is followed by at least one digit, and
take the maximal digit run. -/
def buscarClienteAux : List Char → Option (List Char)
  | [] => none
  | c :: rest =>
    if listaCliente.isPrefixOf (c :: rest) then
      let ds := ((c :: rest).drop 7).takeWhile (·.isDigit)
      if ds.isEmpty then buscarClienteAux rest
      else some (listaCliente ++ ds)
    else buscarClienteAux rest

/-- `df['Media Name'].str.extract(r'(cliente\d+)')[0]` for one cell:
the derived client id, `none` when the media name has no match (NaN). -/
def extraerCliente (s : String) : Option String :=
  (buscarClienteAux s.toList).map String.mk

/-- `re.search(r'(_v\d+)', s)`: leftmost `_v` followed by at least one digit. -/
def buscarVersionAux : List Char → Option (List Char)
  | [] => none
  | c :: rest =>
    if c = '_' then
      match rest with
      | 'v' :: tras =>
        let ds := tras.takeWhile (·.isDigit)
        if ds.isEmpty then buscarVersionAux rest
        else some ('_' :: 'v' :: ds)
      | _ => buscarVersionAux rest
    else buscarVersionAux rest

/-- `df['Media Name'].str.extract(r'(_v\d+)')[0].str.replace('_','')` followed
by `.fillna('sin_version')` for one cell. -/
def extraerVersion (s : String) : String :=
  match buscarVersionAux s.toList with
  | some l => String.mk (l.filter (· ≠ '_'))
  | none => "sin_version"

/-- Civil calendar from a day number (days since 1970-01-01), the standard
days-to-`(year, month, day)` conversion used to model
`pandas.Timestamp`/`datetime` month and day bucketing. -/
def civilDesdeDias (z0 : ℤ) : ℤ × ℤ × ℤ :=
  let z := z0 + 719468
  let era := z / 146097
  let doe := z - era * 146097
  let yoe := (doe - doe / 1460 + doe / 36524 - doe / 146096) / 365
  let doy := doe - (365 * yoe + yoe / 4 - yoe / 100)
  let mp := (5 * doy + 2) / 153
  let d := doy - (153 * mp + 2) / 5 + 1
  let m := mp + (if mp < 10 then 3 else -9)
  (yoe + era * 400 + (if m ≤ 2 then 1 else 0), m, d)

/-- Day bucket of a timestamp (seconds since epoch): the calendar day number,
modelling `dt.strftime('%Y-%m-%d')` up to the bijective formatting. -/
def diaDe (t : ℤ) : ℤ := t / 86400

/-- Month bucket of a timestamp: `(year, month)`, modelling
`dt.to_period('M').astype(str)` up to the bijective formatting. -/
def mesDe (t : ℤ) : ℤ × ℤ :=
  ((civilDesdeDias (diaDe t)).1, (civilDesdeDias (diaDe t)).2.1)

/-- `pd.to_datetime` of a bare `YYYY-MM-DD` date: midnight (start of day)
of that day, as a timestamp. -/
def inicioDelDia (d : ℤ) : ℤ := d * 86400

/-- One row of the unified playback table.  The first seven fields are the
raw columns (`Monitor Name`, `Media Name`, `Media Duration`, `Reported Date`,
`Playback Date`, `Archivo`, `Fecha_Reporte`); the remaining five are the
columns `procesar_datos` writes into the frame (`Cliente`,
`Media Duration Seconds`, `Version`, `Mes`, `Dia_str`). -/
structure Registro where
  monitorName : String := ""
  mediaName : String := ""
  mediaDurationMs : ℚ := 0
  reportedDate : ℤ := 0
  playbackDate : ℤ := 0
  archivo : String := ""
  fechaReporte : ℤ := 0
  cliente : Option String := none
  mediaDurationSeconds : ℚ := 0
  version : String := ""
  mes : ℤ × ℤ := (0, 0)
  dia : ℤ := 0
deriving DecidableEq, Repr

/-- The column derivations of `procesar_datos` (lines 160-176): client id
extraction, duration rescale `/ 1000`, version extraction, month and day
bucketing.  Only raw columns are read; derived columns are overwritten. -/
def derivar (r : Registro) : Registro :=
  { r with
    cliente := extraerCliente r.mediaName
    mediaDurationSeconds := r.mediaDurationMs / 1000
    version := extraerVersion r.mediaName
    mes := mesDe r.playbackDate
    dia := diaDe r.playbackDate }

/-- One value of the configuration JSON object
(`{nombre_real, versiones, expiracion, contacto, activo}`); `expiracion`
is the `YYYY-MM-DD` string, modelled by its parsed day number, with `none`
standing for an unparsable string. -/
structure ClienteCfg where
  nombreReal : String := ""
  versiones : ℤ := 1
  expiracion : Option ℤ := none
  contacto : String := ""
  activo : Bool := true
deriving DecidableEq, Repr

/-- The configuration document: a JSON object, i.e. an insertion-ordered
mapping from client id to record. -/
abbrev Config := List (String × ClienteCfg)

/-- `config.get(k)`: association-list lookup. -/
def obtenerCfg (config : Config) (k : String) : Option ClienteCfg :=
  (config.find? (fun kv => kv.1 = k)).map (·.2)

/-- `config[k] = v`: replace the value in place when the key exists (keys
are unique, so replacing the first occurrence), otherwise append the new key
at the end (Python dict insertion order). -/
def ponerCfg : Config → String → ClienteCfg → Config
  | [], k, v => [(k, v)]
  | kv :: rest, k, v =>
    if kv.1 = k then (k, v) :: rest else kv :: ponerCfg rest k v

/-- `[k for k, v in config.items() if v.get('activo', True)]`:
the ids flagged active in the registry (line 186). -/
def clientesActivosDe (config : Config) : List String :=
  (config.filter (fun kv => kv.2.activo)).map Prod.fst

/-- The record `obtener_info_cliente` returns.  `nombreReal` is an
`Option String` because the synthetic default sets it to the (possibly
NaN) client id. -/
structure InfoCliente where
  nombreReal : Option String
  versiones : ℤ
  expiracion : Option ℤ
  contacto : String
  activo : Bool
deriving DecidableEq, Repr

/-- `obtener_info_cliente` (lines 74-83): look the id up in the
configuration; unknown or null ids get the synthetic default
(30-day expiration from now, one version, empty contact, active). -/
def obtenerInfoCliente (config : Config) (ahora : ℤ) (clienteId : Option String) :
    InfoCliente :=
  match clienteId.bind (obtenerCfg config) with
  | some c =>
    { nombreReal := some c.nombreReal, versiones := c.versiones,
      expiracion := c.expiracion, contacto := c.contacto, activo := c.activo }
  | none =>
    { nombreReal := clienteId, versiones := 1, expiracion := some (ahora + 30),
      contacto := "", activo := true }

/-- The status tag written into the `Estado` column: the four strings
`"✅ Activo"`, `"⚠️ Por vencer"`, `"❌ Vencido"`, `"❌ Fecha inválida"`. -/
inductive Estado where
  | activo
  | porVencer
  | vencido
  | fechaInvalida
deriving DecidableEq, Repr

/-- The `try/except` block of lines 242-248: parse the expiration date
(`none` = `strptime` raised), compute `dias_restantes = fecha_exp - hoy`
and the status tag; on a parse failure the days default to `0` and the
status to invalid-date. -/
def calcEstado (expiracion : Option ℤ) (hoy : ℤ) : ℤ × Estado :=
  match expiracion with
  | some e =>
    let d := e - hoy
    (d, if 7 < d then .activo else if 0 < d then .porVencer else .vencido)
  | none => (0, .fechaInvalida)

/-- One row of the `estado_clientes` table (lines 250-258). -/
structure FilaEstado where
  cliente : Option String
  nombreReal : Option String
  expiracion : Option ℤ
  diasRestantes : ℤ
  estado : Estado
  contacto : String
  versionesConfig : ℤ
deriving DecidableEq, Repr

/-- Build the status row appended for one distinct client id
(lines 238-258). -/
def filaEstado (config : Config) (hoy : ℤ) (clienteId : Option String) :
    FilaEstado :=
  let info := obtenerInfoCliente config hoy clienteId
  let de := calcEstado info.expiracion hoy
  { cliente := clienteId, nombreReal := info.nombreReal,
    expiracion := info.expiracion, diasRestantes := de.1, estado := de.2,
    contacto := info.contacto, versionesConfig := info.versiones }

/-- The date filter of lines 150-158: when a range `(inicio, fin)` of
calendar days is supplied, keep the rows whose playback timestamp is
`≥` midnight of `inicio` and `<` midnight of `fin` plus one day
(`pd.to_datetime(fecha_fin) + timedelta(days=1)`). -/
def filtrarRango (rango : Option (ℤ × ℤ)) (df : List Registro) : List Registro :=
  match rango with
  | none => df
  | some (inicio, fin) =>
    df.filter (fun r =>
      decide (inicioDelDia inicio ≤ r.playbackDate ∧
        r.playbackDate < inicioDelDia fin + 86400))

/-- `df['Cliente'].dropna().unique()`: the distinct non-null client ids, as
used by every `groupby('Cliente')` (pandas drops NaN group keys) and by
`df['Cliente'].nunique()`. -/
def clientesDe (df : List Registro) : List String :=
  (df.filterMap (·.cliente)).dedup

/-- `groupby('Mes')['Cliente'].nunique()` for one month bucket: the number
of distinct non-null client ids among the rows of that month. -/
def nuniqueEnMes (df : List Registro) (m : ℤ × ℤ) : ℕ :=
  (((df.filter (fun r => decide (r.mes = m))).filterMap (·.cliente)).dedup).length

/-- `Series.min()` on a list of timestamps (callers only apply it to
nonempty groups; the `[]` case is an unused default). -/
def minimoLista : List ℤ → ℤ
  | [] => 0
  | x :: xs => xs.foldl min x

/-- Stable insertion of `x` into `l` under the boolean order `le`. -/
def insertarPor (le : α → α → Bool) (x : α) : List α → List α
  | [] => [x]
  | y :: ys => if le x y then x :: y :: ys else y :: insertarPor le x ys

/-- `sort_values` / `sort_index`, modelled as a stable insertion sort
(the claims below never depend on the resulting order, only on the sort
being a deterministic function of its input). -/
def ordenarPor (le : α → α → Bool) : List α → List α
  | [] => []
  | x :: xs => insertarPor le x (ordenarPor le xs)

/-- `len(df)`: the total (ungrouped) play count, as shown in the
`Reproducciones` metric card. -/
def totalReproducciones (df : List Registro) : ℕ := df.length

/-- `df['Media Duration Seconds'].sum()`: the total (ungrouped) duration in
seconds, as used for the `Horas de Contenido` metric card. -/
def totalSegundos (df : List Registro) : ℚ :=
  (df.map (·.mediaDurationSeconds)).sum

/-- The value a keyed one-column table gives to key `m` (`0` when the key
is absent): how a reader consumes a `Mes`-indexed count table. -/
def conteoEn (tabla : List ((ℤ × ℤ) × ℕ)) (m : ℤ × ℤ) : ℕ :=
  ((tabla.find? (fun p => decide (p.1 = m))).map (·.2)).getD 0

/-- `df['Cliente'].isin(clientes_activos)` for one row (line 190):
NaN client ids are never in the list. -/
def filaActiva (config : Config) (r : Registro) : Bool :=
  match r.cliente with
  | some c => (clientesActivosDe config).contains c
  | none => false

/-- The 14-tuple `procesar_datos` returns, with one named field per
position. -/
structure Salida where
  df : List Registro
  ocupacion : List (String × ℚ)
  clientesUnicos : ℕ
  ingresosTotales : ℚ
  clientesPorMes : List ((ℤ × ℤ) × ℕ)
  clientesNuevosMes : List ((ℤ × ℤ) × ℕ)
  ingresosMes : List ((ℤ × ℤ) × ℕ × ℚ)
  campanas : List (String × ℕ)
  frecuenciaClientes : List (String × ℕ)
  topClientes : List (String × ℕ)
  evolucionDiaria : List (ℤ × ℕ)
  versionesPorCliente : List (String × ℕ)
  tiempoPorCliente : List (String × ℚ × ℚ × ℚ)
  estadoClientes : List FilaEstado
deriving DecidableEq, Repr

/-- The early return of lines 134-147: every output in its typed empty or
zero form (the first component is the input frame itself, which is empty
whenever this branch is taken). -/
def salidaVacia (df : List Registro) : Salida :=
  { df := df, ocupacion := [], clientesUnicos := 0, ingresosTotales := 0,
    clientesPorMes := [], clientesNuevosMes := [], ingresosMes := [],
    campanas := [], frecuenciaClientes := [], topClientes := [],
    evolucionDiaria := [], versionesPorCliente := [], tiempoPorCliente := [],
    estadoClientes := [] }

/-- Boolean order used by `sort_index()` on month keys. -/
def mesLe (a b : ℤ × ℤ) : Bool :=
  decide (a.1 < b.1 ∨ (a.1 = b.1 ∧ a.2 ≤ b.2))

/-- The body of `procesar_datos` after the empty check, the date filter and
the column derivations (lines 179-268), applied to the derived table. -/
def procesarNoVacio (df : List Registro) (config : Config) (hoy : ℤ) : Salida :=
  let ocupacion := ((df.map (·.monitorName)).dedup).map (fun k =>
    (k, ((df.filter (fun r => decide (r.monitorName = k))).map
      (·.mediaDurationSeconds)).sum / 3600))
  let clientesUnicos := (clientesDe df).length
  let clientesActivos := clientesActivosDe config
  let resultadoIngresos :=
    if clientesActivos.isEmpty then ((0 : ℚ), ([] : List ((ℤ × ℤ) × ℕ × ℚ)))
    else
      let dfActivos := df.filter (filaActiva config)
      let meses := (dfActivos.map (·.mes)).dedup
      let clientesMes := meses.map (fun m => (m, nuniqueEnMes dfActivos m))
      let promedio : ℚ :=
        if clientesMes.isEmpty then 0
        else ((clientesMes.map (fun p => (p.2 : ℚ))).sum) / (clientesMes.length : ℚ)
      let ingresos :=
        promedio * precioPorCliente * (((clientesMes.map Prod.fst).dedup).length : ℚ)
      (ingresos, clientesMes.map (fun p => (p.1, p.2, (p.2 : ℚ) * precioPorCliente)))
  let primeros := (clientesDe df).map (fun c =>
    mesDe (minimoLista ((df.filter (fun r => decide (r.cliente = some c))).map
      (·.playbackDate))))
  let clientesNuevosMes := ordenarPor (fun a b => mesLe a.1 b.1)
    ((primeros.dedup).map (fun m =>
      (m, (primeros.filter (fun x => decide (x = m))).length)))
  let clientesPorMes := ((df.map (·.mes)).dedup).map (fun m =>
    (m, nuniqueEnMes df m))
  let campanas := (clientesDe df).map (fun c =>
    (c, (df.filter (fun r => decide (r.cliente = some c))).length))
  let frecuenciaClientes := (clientesDe df).map (fun c =>
    (c, (df.filter (fun r => decide (r.cliente = some c))).length))
  let topClientes := ordenarPor (fun a b => b.2 ≤ a.2) campanas
  let evolucionDiaria := ordenarPor (fun a b => a.1 ≤ b.1)
    (((df.map (·.dia)).dedup).map (fun d =>
      (d, (df.filter (fun r => decide (r.dia = d))).length)))
  let versionesPorCliente := (clientesDe df).map (fun c =>
    (c, (((df.filter (fun r => decide (r.cliente = some c))).map
      (·.version)).dedup).length))
  let tiempoPorCliente := (clientesDe df).map (fun c =>
    let s := ((df.filter (fun r => decide (r.cliente = some c))).map
      (·.mediaDurationSeconds)).sum
    (c, s, s / 3600, s / 60))
  let estadoClientes := ((df.map (·.cliente)).dedup).map (filaEstado config hoy)
  { df := df, ocupacion := ocupacion, clientesUnicos := clientesUnicos,
    ingresosTotales := resultadoIngresos.1,
    clientesPorMes := clientesPorMes, clientesNuevosMes := clientesNuevosMes,
    ingresosMes := resultadoIngresos.2, campanas := campanas,
    frecuenciaClientes := frecuenciaClientes, topClientes := topClientes,
    evolucionDiaria := evolucionDiaria,
    versionesPorCliente := versionesPorCliente,
    tiempoPorCliente := tiempoPorCliente, estadoClientes := estadoClientes }

/-- `procesar_datos(df, rango_fechas)` (lines 132-268): empty check, then
date filter, then column derivations, then the aggregates.  The current
date `hoy` and the on-disk configuration are explicit parameters
(`datetime.now().date()` and `cargar_configuracion()`). -/
def procesar_datos (df : List Registro) (config : Config) (hoy : ℤ)
    (rango : Option (ℤ × ℤ)) : Salida :=
  if df = [] then salidaVacia df
  else procesarNoVacio ((filtrarRango rango df).map derivar) config hoy

/-- Python `x or y` for an optional string input: `None` and the empty
string are falsy. -/
def pyOrStr (x : Option String) (y : String) : String :=
  match x with
  | some s => if s = "" then y else s
  | none => y

/-- Python `x or y` for an optional number input: `None` and `0` are falsy. -/
def pyOrInt (x : Option ℤ) (y : ℤ) : ℤ :=
  match x with
  | some v => if v = 0 then y else v
  | none => y

/-- The three outputs of the `guardar_cliente` callback, reduced to what
they say about the request: `no_update`, a rejection message with no write,
or a success message with the new configuration. -/
inductive SalidaGuardar where
  | sinCambio
  | rechazado
  | guardado (config : Config)
deriving DecidableEq, Repr

/-- `guardar_cliente` (lines 1084-1110).  `disco` is the configuration
document on disk (`cargar_configuracion()` reads it; the `stored-config`
state argument is never read by the logic).  The second component of the
result is the document on disk after the call: `guardar_configuracion`
runs only on the success path. -/
def guardarCliente (nClicks : Option ℕ) (clienteId : Option String)
    (nombreReal : Option String) (versiones : Option ℤ)
    (expiracion : Option ℤ) (contacto : Option String) (activo : List ℕ)
    (disco : Config) (ahora : ℤ) : SalidaGuardar × Config :=
  match nClicks, clienteId with
  | none, _ => (.sinCambio, disco)
  | some _, none => (.sinCambio, disco)
  | some _, some cid =>
    if cid = "" then (.sinCambio, disco)
    else if ¬ listaCliente.isPrefixOf cid.toList then (.rechazado, disco)
    else
      let nuevo : ClienteCfg :=
        { nombreReal := pyOrStr nombreReal cid
          versiones := pyOrInt versiones 1
          expiracion := some (expiracion.getD (ahora + 30))
          contacto := pyOrStr contacto ""
          activo := ¬ activo.isEmpty }
      let config := ponerCfg disco cid nuevo
      (.guardado config, config)

/-- The `clienteN` pattern of the spec: the literal `cliente` followed by
one or more digits and nothing else. -/
def esClienteN (s : String) : Bool :=
  listaCliente.isPrefixOf s.toList &&
    ¬ (s.toList.drop 7).isEmpty && (s.toList.drop 7).all (·.isDigit)

/-- Python truthiness of an optional string field. -/
def truthyStr (x : Option String) : Bool :=
  match x with
  | some s => ¬ s.isEmpty
  | none => false

/-- `total = precio - precio * (descuento / 100) + iva` when all three
pricing inputs are present, else `0` (lines 1189-1193). -/
def calcularTotal (precio descuento iva : Option ℚ) : ℚ :=
  match precio, descuento, iva with
  | some p, some d, some i => p - p * (d / 100) + i
  | _, _, _ => 0

/-- The flat record handed to the PDF renderer (`datos_contrato`,
lines 1207-1228).  The formatted money and percent strings are modelled by
their numeric values; the date by its day number. -/
structure DatosContrato where
  nombreCliente : String
  rfc : String
  domicilio : String
  contacto : String
  fechaContrato : ℤ
  numeroOrden : String
  empresa : String
  clienteNuevo : String
  duracion : String
  versiones : ℤ
  diseno : String
  descripcionContenido : String
  duracionVigencia : String
  frecuenciaProyeccion : String
  horarioPrograma : String
  formatoEntregado : String
  precioBase : ℚ
  descuento : ℚ
  iva : ℚ
  total : ℚ
deriving DecidableEq, Repr

/-- Build `datos_contrato` from the callback inputs; `total` is the value
computed at lines 1189-1193 — there is no client-supplied total among the
inputs (the `contrato-total` widget is an output of this callback, not a
state it reads). -/
def construirDatosContrato (precio descuento iva : Option ℚ)
    (nombre rfc domicilio contacto : Option String) (fecha : Option ℤ)
    (numeroOrden empresa clienteNuevo duracion : Option String)
    (versiones : Option ℤ)
    (diseno descripcion vigencia frecuencia horario formato : Option String)
    (ahora : ℤ) : DatosContrato :=
  { nombreCliente := pyOrStr nombre ""
    rfc := pyOrStr rfc ""
    domicilio := pyOrStr domicilio ""
    contacto := pyOrStr contacto ""
    fechaContrato := fecha.getD ahora
    numeroOrden := pyOrStr numeroOrden ""
    empresa := pyOrStr empresa ""
    clienteNuevo := pyOrStr clienteNuevo "Sí"
    duracion := pyOrStr duracion ""
    versiones := pyOrInt versiones 1
    diseno := pyOrStr diseno ""
    descripcionContenido := pyOrStr descripcion ""
    duracionVigencia := pyOrStr vigencia ""
    frecuenciaProyeccion := pyOrStr frecuencia ""
    horarioPrograma := pyOrStr horario ""
    formatoEntregado := pyOrStr formato ""
    precioBase := precio.getD 0
    descuento := descuento.getD 0
    iva := iva.getD 0
    total := calcularTotal precio descuento iva }

/-- The outcome of the `generar_contrato` callback: `no_update`, a
recompute-only pass (non-button trigger), a missing-fields rejection, or a
generated contract; each non-`no_update` outcome carries the recomputed
total written back into the `contrato-total` widget. -/
inductive SalidaContrato where
  | sinCambio
  | soloTotal (total : ℚ)
  | faltanCampos (total : ℚ)
  | generado (datos : DatosContrato) (total : ℚ)
deriving DecidableEq, Repr

/-- `generar_contrato` (lines 1181-1244).  `esBoton` is whether the firing
input was the generate button; the successful PDF write is modelled as
always succeeding (the file system is out of scope). -/
def generarContrato (nClicks : Option ℕ) (esBoton : Bool)
    (precio descuento iva : Option ℚ)
    (nombre rfc domicilio contacto : Option String) (fecha : Option ℤ)
    (numeroOrden empresa clienteNuevo duracion : Option String)
    (versiones : Option ℤ)
    (diseno descripcion vigencia frecuencia horario formato : Option String)
    (ahora : ℤ) : SalidaContrato :=
  match nClicks with
  | none => .sinCambio
  | some _ =>
    let total := calcularTotal precio descuento iva
    if ¬ esBoton then .soloTotal total
    else if ¬ (truthyStr nombre && truthyStr rfc && truthyStr domicilio &&
        truthyStr contacto && fecha.isSome && truthyStr numeroOrden) then
      .faltanCampos total
    else
      .generado (construirDatosContrato precio descuento iva nombre rfc
        domicilio contacto fecha numeroOrden empresa clienteNuevo duracion
        versiones diseno descripcion vigencia frecuencia horario formato
        ahora) total

/-- The revenue estimate written exactly as the spec words it: restrict to
rows of clients flagged active in the registry; for each month bucket count
the distinct active clients present; revenue is the mean of those monthly
counts times the fixed per-client price times the number of distinct months
in which active clients are observed.  (Stated over the derived table;
the mean over zero months is `0` by the `ℚ` convention `x / 0 = 0`.) -/
def ingresosSpec (df : List Registro) (config : Config) : ℚ :=
  let activos := df.filter (filaActiva config)
  let meses := (activos.map (·.mes)).dedup
  ((meses.map (fun m => (nuniqueEnMes activos m : ℚ))).sum /
      (meses.length : ℚ)) *
    precioPorCliente * (meses.length : ℚ)

/-! ### Concrete data used by scenarios, witnesses and counterexamples -/

/-- A row timestamped within day 1 (one second after midnight). -/
def regDentro : Registro := { playbackDate := 86401 }

/-- A row timestamped on day 2 (midnight). -/
def regFuera : Registro := { playbackDate := 172800 }

/-- The two-row table used to instantiate the date-filter boundary. -/
def dfBorde : List Registro := [regDentro, regFuera]

/-- The registry state used to exhibit that the save overwrites rather than
merges. -/
def cfgPrevio : Config :=
  [("cliente1",
    { nombreReal := "Acme", versiones := 3, expiracion := some 100,
      contacto := "a@b.c", activo := false })]

/-- The registry of the revenue scenario: only `cliente1`, flagged active. -/
def cfgEscenario : Config :=
  [("cliente1",
    { nombreReal := "Cliente Uno", versiones := 1, expiracion := some 30,
      contacto := "", activo := true })]

/-- The log of the revenue scenario: `cliente1` plays in two months
(1970-01 and 1970-02) and the unconfigured `cliente2` plays in the first of
them. -/
def dfEscenario : List Registro :=
  [{ mediaName := "cliente1_v1", playbackDate := 0 },
   { mediaName := "cliente1_v1", playbackDate := 2678400 },
   { mediaName := "cliente2", playbackDate := 432000 }]

/-- A one-row table whose single timestamp (day 10) lies outside the range
`(0, 1)`, so date filtering empties it. -/
def dfFueraDeRango : List Registro := [{ playbackDate := 864000 }]

/-- A one-row table whose media name has no client id. -/
def dfSinCliente : List Registro := [{ mediaName := "promo_interna" }]

/-- A one-row table attributed to `cliente1`. -/
def dfCliente1 : List Registro := [{ mediaName := "cliente1", playbackDate := 0 }]

/-- A row whose media name matches no client. -/
def regPromo : Registro := { mediaName := "promo_interna" }

/-! ### Helper lemmas -/

theorem derivar_idem (r : Registro) : derivar (derivar r) = derivar r := rfl

theorem pnv_df (df : List Registro) (config : Config) (hoy : ℤ) :
    (procesarNoVacio df config hoy).df = df := rfl

theorem pnv_clientesUnicos (df : List Registro) (config : Config) (hoy : ℤ) :
    (procesarNoVacio df config hoy).clientesUnicos = (clientesDe df).length := rfl

theorem pnv_campanas (df : List Registro) (config : Config) (hoy : ℤ) :
    (procesarNoVacio df config hoy).campanas = (clientesDe df).map (fun c =>
      (c, (df.filter (fun r => decide (r.cliente = some c))).length)) := rfl

theorem pnv_frecuencia (df : List Registro) (config : Config) (hoy : ℤ) :
    (procesarNoVacio df config hoy).frecuenciaClientes =
      (clientesDe df).map (fun c =>
        (c, (df.filter (fun r => decide (r.cliente = some c))).length)) := rfl

theorem pnv_top (df : List Registro) (config : Config) (hoy : ℤ) :
    (procesarNoVacio df config hoy).topClientes =
      ordenarPor (fun a b => b.2 ≤ a.2) ((procesarNoVacio df config hoy).campanas) := rfl

theorem pnv_versiones (df : List Registro) (config : Config) (hoy : ℤ) :
    (procesarNoVacio df config hoy).versionesPorCliente =
      (clientesDe df).map (fun c =>
        (c, (((df.filter (fun r => decide (r.cliente = some c))).map
          (·.version)).dedup).length)) := rfl

theorem pnv_tiempo (df : List Registro) (config : Config) (hoy : ℤ) :
    (procesarNoVacio df config hoy).tiempoPorCliente =
      (clientesDe df).map (fun c =>
        let s := ((df.filter (fun r => decide (r.cliente = some c))).map
          (·.mediaDurationSeconds)).sum
        (c, s, s / 3600, s / 60)) := rfl

theorem pnv_clientesPorMes (df : List Registro) (config : Config) (hoy : ℤ) :
    (procesarNoVacio df config hoy).clientesPorMes =
      ((df.map (·.mes)).dedup).map (fun m => (m, nuniqueEnMes df m)) := rfl

theorem pnv_estado (df : List Registro) (config : Config) (hoy : ℤ) :
    (procesarNoVacio df config hoy).estadoClientes =
      ((df.map (·.cliente)).dedup).map (filaEstado config hoy) := rfl

theorem pnv_ingresos (df : List Registro) (config : Config) (hoy : ℤ) :
    (procesarNoVacio df config hoy).ingresosTotales =
      if (clientesActivosDe config).isEmpty then 0
      else
        let dfActivos := df.filter (filaActiva config)
        let meses := (dfActivos.map (·.mes)).dedup
        let clientesMes := meses.map (fun m => (m, nuniqueEnMes dfActivos m))
        (if clientesMes.isEmpty then 0
         else ((clientesMes.map (fun p => (p.2 : ℚ))).sum) /
           (clientesMes.length : ℚ)) *
          precioPorCliente * (((clientesMes.map Prod.fst).dedup).length : ℚ) := by
  unfold procesarNoVacio
  by_cases h : (clientesActivosDe config).isEmpty <;> simp only [h, if_true,
    if_false, Bool.false_eq_true, if_neg, ite_true, ite_false]

/-! ### Claim theorems -/

/-- C2: the status tag of a client-status row is `Activo` exactly when the
remaining days exceed 7, `Por vencer` exactly when they are in `(0, 7]`,
`Vencido` exactly when they are `≤ 0`, and `Fecha inválida` when the
configured expiration date is unparsable; in particular an expiration of
today + 7 days is `Por vencer`, today + 8 days is `Activo`, and today is
`Vencido`.  The days-remaining value is expiration minus today, and every
status row is computed by this rule. -/
theorem estado_umbrales (e hoy : ℤ) (config : Config) (cid : Option String) :
    (calcEstado (some e) hoy).1 = e - hoy
    ∧ ((calcEstado (some e) hoy).2 = Estado.activo ↔ 7 < e - hoy)
    ∧ ((calcEstado (some e) hoy).2 = Estado.porVencer ↔
        0 < e - hoy ∧ e - hoy ≤ 7)
    ∧ ((calcEstado (some e) hoy).2 = Estado.vencido ↔ e - hoy ≤ 0)
    ∧ calcEstado none hoy = (0, Estado.fechaInvalida)
    ∧ (calcEstado (some (hoy + 7)) hoy).2 = Estado.porVencer
    ∧ (calcEstado (some (hoy + 8)) hoy).2 = Estado.activo
    ∧ (calcEstado (some hoy) hoy).2 = Estado.vencido
    ∧ (filaEstado config hoy cid).estado =
        (calcEstado (obtenerInfoCliente config hoy cid).expiracion hoy).2
    ∧ ∀ (df : List Registro) (rango : Option (ℤ × ℤ)) (fila : FilaEstado),
        fila ∈ (procesar_datos df config hoy rango).estadoClientes →
        fila.estado = (calcEstado fila.expiracion hoy).2
        ∧ fila.diasRestantes = (calcEstado fila.expiracion hoy).1 := by
  have h7 : hoy + 7 - hoy = (7 : ℤ) := by ring
  have h8 : hoy + 8 - hoy = (8 : ℤ) := by ring
  have h0 : hoy - hoy = (0 : ℤ) := by ring
  have htab : ∀ (df : List Registro) (rango : Option (ℤ × ℤ))
      (fila : FilaEstado),
      fila ∈ (procesar_datos df config hoy rango).estadoClientes →
      fila.estado = (calcEstado fila.expiracion hoy).2
      ∧ fila.diasRestantes = (calcEstado fila.expiracion hoy).1 := by
    intro df rango fila hfila
    unfold procesar_datos at hfila
    by_cases h : df = []
    · rw [if_pos h] at hfila
      simp [salidaVacia] at hfila
    · rw [if_neg h, pnv_estado] at hfila
      obtain ⟨cid, -, hfe⟩ := List.mem_map.mp hfila
      subst hfe
      exact ⟨rfl, rfl⟩
  refine ⟨rfl, ?_, ?_, ?_, rfl, ?_, ?_, ?_, rfl, htab⟩ <;>
    simp only [calcEstado, h7, h8, h0] <;>
    split_ifs <;> simp_all <;> omega

theorem estado_umbrales_witness :
    ({ cliente := none, nombreReal := none, expiracion := some 30,
       diasRestantes := 30, estado := Estado.activo, contacto := "",
       versionesConfig := 1 } : FilaEstado).estado =
      (calcEstado (some 30) 0).2 :=
  ((estado_umbrales 40 0 [] none).2.2.2.2.2.2.2.2.2
    [{ mediaName := "promo_interna" }] none _ (by decide)).1

/-- C9: the total written into the contract record equals
base price − base price × discount/100 + tax, and it is always the value
recomputed by `calcularTotal` from the three pricing inputs at generation
time (the builder takes no client-supplied total at all). -/
theorem contrato_total_correcto :
    (∀ (p d i : ℚ) nombre rfc domicilio contacto fecha numeroOrden empresa
        clienteNuevo duracion versiones diseno descripcion vigencia frecuencia
        horario formato ahora,
      (construirDatosContrato (some p) (some d) (some i) nombre rfc domicilio
        contacto fecha numeroOrden empresa clienteNuevo duracion versiones
        diseno descripcion vigencia frecuencia horario formato ahora).total =
        p - p * (d / 100) + i)
    ∧ (∀ precio descuento iva nombre rfc domicilio contacto fecha numeroOrden
        empresa clienteNuevo duracion versiones diseno descripcion vigencia
        frecuencia horario formato ahora,
      (construirDatosContrato precio descuento iva nombre rfc domicilio
        contacto fecha numeroOrden empresa clienteNuevo duracion versiones
        diseno descripcion vigencia frecuencia horario formato ahora).total =
        calcularTotal precio descuento iva) := by
  exact ⟨fun _ _ _ _ _ _ _ _ _ _ _ _ _ _ _ _ _ _ _ _ => rfl,
    fun _ _ _ _ _ _ _ _ _ _ _ _ _ _ _ _ _ _ _ _ => rfl⟩

/-- C4: the date filter keeps exactly the rows whose playback timestamp is
≥ start-of-day of `inicio` and < start-of-day of `fin` plus one day; hence a
row timestamped at any time within the `fin` calendar day is kept (when the
range is well-formed), and a row on day `fin + 1` is dropped. -/
theorem filtro_fechas (df : List Registro) (inicio fin : ℤ) (r : Registro)
    (hmem : r ∈ df) :
    (r ∈ filtrarRango (some (inicio, fin)) df ↔
      inicioDelDia inicio ≤ r.playbackDate ∧
        r.playbackDate < inicioDelDia (fin + 1))
    ∧ (inicio ≤ fin → diaDe r.playbackDate = fin →
        r ∈ filtrarRango (some (inicio, fin)) df)
    ∧ (diaDe r.playbackDate = fin + 1 →
        r ∉ filtrarRango (some (inicio, fin)) df) := by
  have hfil : ∀ x : Registro, x ∈ filtrarRango (some (inicio, fin)) df ↔
      x ∈ df ∧ (inicioDelDia inicio ≤ x.playbackDate ∧
        x.playbackDate < inicioDelDia fin + 86400) := by
    intro x
    simp [filtrarRango, List.mem_filter]
  refine ⟨?_, ?_, ?_⟩
  · rw [hfil]
    simp only [hmem, true_and, inicioDelDia]
    omega
  · intro hle hdia
    rw [hfil]
    refine ⟨hmem, ?_, ?_⟩ <;> unfold diaDe at hdia <;> unfold inicioDelDia <;>
      omega
  · intro hdia hcon
    rw [hfil] at hcon
    obtain ⟨-, h1, h2⟩ := hcon
    unfold diaDe at hdia
    unfold inicioDelDia at h1 h2
    omega

theorem filtro_fechas_witness :
    regDentro ∈ filtrarRango (some (0, 1)) dfBorde
    ∧ regFuera ∉ filtrarRango (some (0, 1)) dfBorde :=
  ⟨(filtro_fechas dfBorde 0 1 regDentro (by decide)).2.1 (by decide) (by decide),
    (filtro_fechas dfBorde 0 1 regFuera (by decide)).2.2 (by decide)⟩

theorem obtenerCfg_ponerCfg (config : Config) (k k' : String) (v : ClienteCfg) :
    obtenerCfg (ponerCfg config k v) k' =
      if k' = k then some v else obtenerCfg config k' := by
  induction config with
  | nil =>
    by_cases h : k' = k
    · subst h
      simp [ponerCfg, obtenerCfg, List.find?]
    · have hd : decide (k = k') = false := decide_eq_false fun hh => h hh.symm
      simp [ponerCfg, obtenerCfg, List.find?, hd, h]
  | cons kv rest ih =>
    by_cases h1 : kv.1 = k
    · by_cases h2 : k' = k
      · subst h2
        simp [ponerCfg, obtenerCfg, List.find?, h1]
      · have hd : decide (k = k') = false :=
          decide_eq_false fun hh => h2 hh.symm
        have hd2 : decide (kv.1 = k') = false :=
          decide_eq_false fun hh => h2 ((h1.symm.trans hh).symm)
        simp [ponerCfg, obtenerCfg, List.find?, h1, h2, hd, hd2]
    · by_cases h3 : kv.1 = k'
      · have h2 : ¬ k' = k := fun hh => h1 (h3.trans hh)
        have hd3 : decide (kv.1 = k') = true := decide_eq_true h3
        simp [ponerCfg, obtenerCfg, List.find?, h1, h2, hd3]
      · have hd3 : decide (kv.1 = k') = false := decide_eq_false h3
        have hlhs : obtenerCfg (ponerCfg (kv :: rest) k v) k' =
            obtenerCfg (ponerCfg rest k v) k' := by
          simp [ponerCfg, obtenerCfg, List.find?, h1, hd3]
        rw [hlhs, ih]
        by_cases h2 : k' = k
        · simp [h2]
        · simp [h2, obtenerCfg, List.find?, hd3]

/-- C3 counterexample: the id `"clientex"` does not match the `clienteN`
pattern, yet the save operation accepts it and writes it into the registry
(the code only checks the `cliente` prefix, per its own error message). -/
theorem guardar_acepta_clientex :
    esClienteN "clientex" = false
    ∧ (guardarCliente (some 1) (some "clientex") none none none none [1] []
        0).1 ≠ SalidaGuardar.rechazado
    ∧ (guardarCliente (some 1) (some "clientex") none none none none [1] []
        0).2 ≠ ([] : Config) := by
  refine ⟨by decide, by decide, by decide⟩

/-- C3 (amended): for every client id that does not start with the literal
`cliente`, a clicked save with a nonempty id is rejected with a validation
error and the persisted registry is left unchanged (no partial write). -/
theorem guardar_rechaza_sin_prefijo (n : ℕ) (cid : String)
    (nombreReal : Option String) (versiones expiracion : Option ℤ)
    (contacto : Option String) (activo : List ℕ) (disco : Config) (ahora : ℤ)
    (hne : cid ≠ "") (hpre : ¬ listaCliente.isPrefixOf cid.toList) :
    guardarCliente (some n) (some cid) nombreReal versiones expiracion
      contacto activo disco ahora = (.rechazado, disco) := by
  have hpre' : ¬ listaCliente <+: cid.data := by simpa using hpre
  simp [guardarCliente, hne, hpre']

theorem guardar_rechaza_sin_prefijo_witness :
    guardarCliente (some 1) (some "acme") none none none none [] [] 0 =
      (.rechazado, []) :=
  guardar_rechaza_sin_prefijo 1 "acme" none none none none [] [] 0
    (by decide) (by decide)

/-- C7 counterexample: with `cliente1` already stored with contact
`"a@b.c"`, a save that provides no contact field persists an empty contact
instead of keeping the previously stored value — the save does not merge
over the existing record. -/
theorem guardar_no_fusiona :
    ((obtenerCfg (guardarCliente (some 1) (some "cliente1") none none none
        none [1] cfgPrevio 0).2 "cliente1").map (·.contacto)) = some ""
    ∧ ("" : String) ≠ "a@b.c" := by
  refine ⟨by decide, by decide⟩

/-- C7 (amended): an accepted save replaces the whole stored record: every
field is the provided value when one was supplied and truthy, and otherwise
a fixed default (display name defaults to the id, version count to 1,
expiration to now + 30 days, contact to empty, active to the checkbox
state); previously persisted field values are not kept.  Records under
other keys are untouched. -/
theorem guardar_sobrescribe (n : ℕ) (cid : String)
    (nombreReal : Option String) (versiones expiracion : Option ℤ)
    (contacto : Option String) (activo : List ℕ) (disco : Config) (ahora : ℤ)
    (hne : cid ≠ "") (hpre : listaCliente.isPrefixOf cid.toList) :
    (guardarCliente (some n) (some cid) nombreReal versiones expiracion
        contacto activo disco ahora).1 =
      .guardado (ponerCfg disco cid
        { nombreReal := pyOrStr nombreReal cid
          versiones := pyOrInt versiones 1
          expiracion := some (expiracion.getD (ahora + 30))
          contacto := pyOrStr contacto ""
          activo := ¬ activo.isEmpty })
    ∧ obtenerCfg (guardarCliente (some n) (some cid) nombreReal versiones
        expiracion contacto activo disco ahora).2 cid =
      some { nombreReal := pyOrStr nombreReal cid
             versiones := pyOrInt versiones 1
             expiracion := some (expiracion.getD (ahora + 30))
             contacto := pyOrStr contacto ""
             activo := ¬ activo.isEmpty }
    ∧ ∀ k, k ≠ cid →
        obtenerCfg (guardarCliente (some n) (some cid) nombreReal versiones
          expiracion contacto activo disco ahora).2 k = obtenerCfg disco k := by
  have hcall : guardarCliente (some n) (some cid) nombreReal versiones
      expiracion contacto activo disco ahora =
      (.guardado (ponerCfg disco cid
        { nombreReal := pyOrStr nombreReal cid
          versiones := pyOrInt versiones 1
          expiracion := some (expiracion.getD (ahora + 30))
          contacto := pyOrStr contacto ""
          activo := ¬ activo.isEmpty }),
       ponerCfg disco cid
        { nombreReal := pyOrStr nombreReal cid
          versiones := pyOrInt versiones 1
          expiracion := some (expiracion.getD (ahora + 30))
          contacto := pyOrStr contacto ""
          activo := ¬ activo.isEmpty }) := by
    have hpre' : listaCliente <+: cid.data := by simpa using hpre
    simp [guardarCliente, hne, hpre']
  refine ⟨by rw [hcall], ?_, ?_⟩
  · rw [hcall, obtenerCfg_ponerCfg]
    simp
  · intro k hk
    rw [hcall]
    simp only
    rw [obtenerCfg_ponerCfg, if_neg hk]

theorem guardar_sobrescribe_witness :
    obtenerCfg (guardarCliente (some 1) (some "cliente1") none none none none
        [1] cfgPrevio 0).2 "cliente1" =
      some { nombreReal := "cliente1", versiones := 1, expiracion := some 30,
             contacto := "", activo := true } := by
  have h := (guardar_sobrescribe 1 "cliente1" none none none none [1]
    cfgPrevio 0 (by decide) (by decide)).2.1
  simpa [pyOrStr, pyOrInt] using h

/-- C6: whenever the table reaching the aggregation is empty — the input had
no rows, or a supplied date range filtered every row out — every component
of the result is its correctly-typed empty or zero form (and, the functions
being total, no exception is possible). -/
theorem agregados_vacios (df : List Registro) (config : Config) (hoy : ℤ)
    (rango : Option (ℤ × ℤ)) (hfil : filtrarRango rango df = []) :
    procesar_datos df config hoy rango = salidaVacia [] := by
  unfold procesar_datos
  by_cases h : df = []
  · subst h
    simp
  · rw [if_neg h, hfil]
    show procesarNoVacio (([] : List Registro).map derivar) config hoy =
      salidaVacia []
    unfold procesarNoVacio salidaVacia
    by_cases hact : (clientesActivosDe config).isEmpty <;>
      simp [hact, clientesDe, ordenarPor]

theorem agregados_vacios_witness :
    procesar_datos dfFueraDeRango [] 0 (some (0, 1)) = salidaVacia [] :=
  agregados_vacios dfFueraDeRango [] 0 (some (0, 1)) (by decide)

/-- C8: the aggregation is a pure function of the table, the registry state
and the current date, so a second run on the same inputs returns the
identical output; in particular — since `procesar_datos` mutates its frame
in place, so "the same table" after a first run is the derived table that
run returned — re-running on the returned frame with the same registry
yields exactly the first result, every component included. -/
theorem procesar_idempotente (df : List Registro) (config : Config) (hoy : ℤ) :
    procesar_datos (procesar_datos df config hoy none).df config hoy none =
      procesar_datos df config hoy none := by
  by_cases h : df = []
  · subst h
    rfl
  · have hd : (procesar_datos df config hoy none).df = df.map derivar := by
      unfold procesar_datos
      rw [if_neg h]
      rfl
    have h2 : df.map derivar ≠ [] := fun hh => h (by simpa using hh)
    rw [hd]
    unfold procesar_datos
    rw [if_neg h2, if_neg h]
    congr 1
    show (filtrarRango none (df.map derivar)).map derivar =
      (filtrarRango none df).map derivar
    simp only [filtrarRango]
    rw [List.map_map]
    simp [Function.comp, derivar_idem]

theorem mediaVecesMeses (M : List (ℤ × ℤ)) (g : ℤ × ℤ → ℕ)
    (hM : M.dedup = M) :
    (if (M.map (fun m => (m, g m))).isEmpty then (0 : ℚ)
     else (((M.map (fun m => (m, g m))).map (fun p => (p.2 : ℚ))).sum) /
       ((M.map (fun m => (m, g m))).length : ℚ)) *
      precioPorCliente *
      ((((M.map (fun m => (m, g m))).map Prod.fst).dedup).length : ℚ) =
    ((M.map (fun m => (g m : ℚ))).sum / (M.length : ℚ)) * precioPorCliente *
      (M.length : ℚ) := by
  have hfst : (M.map (fun m => (m, g m))).map Prod.fst = M := by
    rw [List.map_map]
    have hcomp : (Prod.fst ∘ fun m : ℤ × ℤ => (m, g m)) = id := by
      funext m
      rfl
    rw [hcomp, List.map_id]
  have hsum : (M.map (fun m => (m, g m))).map (fun p => (p.2 : ℚ)) =
      M.map (fun m => (g m : ℚ)) := by
    rw [List.map_map]
    rfl
  rw [hfst, hM, hsum, List.length_map]
  by_cases hm : M = []
  · subst hm
    simp
  · rw [if_neg (by simpa [List.isEmpty_iff] using hm)]

theorem pnv_ingresos_spec (df : List Registro) (config : Config) (hoy : ℤ)
    (hact : clientesActivosDe config ≠ []) :
    (procesarNoVacio df config hoy).ingresosTotales =
      ingresosSpec df config := by
  have hne : (clientesActivosDe config).isEmpty = false := by
    simpa [List.isEmpty_iff] using hact
  rw [pnv_ingresos, hne]
  simp only [Bool.false_eq_true, if_false]
  rw [mediaVecesMeses ((df.filter (filaActiva config)).map (fun r => r.mes)).dedup
    (fun m => nuniqueEnMes (df.filter (filaActiva config)) m) List.dedup_idem]
  rfl

/-- C1: whenever at least one client is flagged active in the registry, the
revenue estimate equals the mean over month buckets of the count of distinct
active clients present in that month, times the fixed per-client price,
times the number of distinct months in which active clients are observed;
in particular for the scenario (only `cliente1` active, playing in two
months, `cliente2` unconfigured in one of them) the revenue is
`1 × price × 2`. -/
theorem ingresos_formula :
    (∀ (df : List Registro) (config : Config) (hoy : ℤ),
      clientesActivosDe config ≠ [] →
      (procesar_datos df config hoy none).ingresosTotales =
        ingresosSpec (df.map derivar) config)
    ∧ (procesar_datos dfEscenario cfgEscenario 0 none).ingresosTotales =
        1 * precioPorCliente * 2 := by
  constructor
  · intro df config hoy hact
    unfold procesar_datos
    by_cases h : df = []
    · subst h
      rw [if_pos rfl]
      show (0 : ℚ) = ingresosSpec [] config
      simp [ingresosSpec]
    · rw [if_neg h]
      have hmap : (filtrarRango none df).map derivar = df.map derivar := by
        simp [filtrarRango]
      rw [hmap, pnv_ingresos_spec _ _ _ hact]
  · have hact : clientesActivosDe cfgEscenario ≠ [] := by decide
    have hne : dfEscenario ≠ [] := by decide
    unfold procesar_datos
    rw [if_neg hne, pnv_ingresos_spec _ _ _ hact]
    have hfil : (filtrarRango none dfEscenario).map derivar =
        dfEscenario.map derivar := by
      simp [filtrarRango]
    rw [hfil]
    simp only [ingresosSpec]
    rw [show (((dfEscenario.map derivar).filter
        (filaActiva cfgEscenario)).map (fun r => r.mes)).dedup =
      [((1970 : ℤ), (1 : ℤ)), (1970, 2)] from by decide]
    simp only [List.map_cons, List.map_nil, List.sum_cons, List.sum_nil,
      List.length_cons, List.length_nil]
    rw [show nuniqueEnMes ((dfEscenario.map derivar).filter
        (filaActiva cfgEscenario)) (1970, 1) = 1 from by decide]
    rw [show nuniqueEnMes ((dfEscenario.map derivar).filter
        (filaActiva cfgEscenario)) (1970, 2) = 1 from by decide]
    norm_num [precioPorCliente]

theorem ingresos_formula_witness :
    clientesActivosDe cfgEscenario ≠ [] ∧
      (procesar_datos dfEscenario cfgEscenario 0 none).ingresosTotales =
        ingresosSpec (dfEscenario.map derivar) cfgEscenario :=
  ⟨by decide, ingresos_formula.1 dfEscenario cfgEscenario 0 (by decide)⟩

theorem pnv_nil (config : Config) (hoy : ℤ) :
    procesarNoVacio ([] : List Registro) config hoy = salidaVacia [] := by
  unfold procesarNoVacio salidaVacia
  by_cases hact : (clientesActivosDe config).isEmpty <;>
    simp [hact, clientesDe, ordenarPor]

theorem procesar_eq_pnv (df : List Registro) (config : Config) (hoy : ℤ) :
    procesar_datos df config hoy none =
      procesarNoVacio (df.map derivar) config hoy := by
  unfold procesar_datos
  by_cases h : df = []
  · subst h
    rw [if_pos rfl]
    simp only [List.map_nil]
    rw [pnv_nil]
  · rw [if_neg h]
    have hmap : (filtrarRango none df).map derivar = df.map derivar := by
      simp [filtrarRango]
    rw [hmap]

/-- C10: whenever the table contains a row whose media name does not match
the `clienteN` pattern, the client-status table contains a row for the
null client id, filled with the synthetic default configuration: name the
(null) id itself, 30-day expiration from today (hence 30 days remaining and
an active status), empty contact and one configured version.  The null
bucket is kept in the status table even though grouped aggregates drop it. -/
theorem estado_incluye_nulo (df : List Registro) (config : Config) (hoy : ℤ)
    (r : Registro) (hmem : r ∈ df) (hr : extraerCliente r.mediaName = none) :
    ({ cliente := none, nombreReal := none, expiracion := some (hoy + 30),
       diasRestantes := 30, estado := Estado.activo, contacto := "",
       versionesConfig := 1 } : FilaEstado)
      ∈ (procesar_datos df config hoy none).estadoClientes := by
  rw [procesar_eq_pnv, pnv_estado]
  have h1 : (none : Option String) ∈
      ((df.map derivar).map (fun r => r.cliente)).dedup := by
    rw [List.mem_dedup]
    exact List.mem_map.mpr ⟨derivar r, List.mem_map_of_mem _ hmem,
      by simp [derivar, hr]⟩
  have h30 : hoy + 30 - hoy = (30 : ℤ) := by ring
  have h2 : filaEstado config hoy none =
      { cliente := none, nombreReal := none, expiracion := some (hoy + 30),
        diasRestantes := 30, estado := Estado.activo, contacto := "",
        versionesConfig := 1 } := by
    simp [filaEstado, obtenerInfoCliente, calcEstado, h30]
  rw [← h2]
  exact List.mem_map_of_mem _ h1

theorem estado_incluye_nulo_witness :
    ({ cliente := none, nombreReal := none, expiracion := some 30,
       diasRestantes := 30, estado := Estado.activo, contacto := "",
       versionesConfig := 1 } : FilaEstado)
      ∈ (procesar_datos dfSinCliente [] 0 none).estadoClientes :=
  estado_incluye_nulo dfSinCliente [] 0 { mediaName := "promo_interna" }
    (by decide) (by decide)

theorem filterMap_cliente_append (df : List Registro) (x : Registro)
    (hx : x.cliente = none) :
    (df ++ [x]).filterMap (fun r => r.cliente) =
      df.filterMap (fun r => r.cliente) := by
  simp [List.filterMap_append, hx]

theorem filter_cliente_append (df : List Registro) (x : Registro)
    (hx : x.cliente = none) (c : String) :
    (df ++ [x]).filter (fun r => decide (r.cliente = some c)) =
      df.filter (fun r => decide (r.cliente = some c)) := by
  simp [List.filter_append, hx]

theorem nuniqueEnMes_append (df : List Registro) (x : Registro)
    (hx : x.cliente = none) (m : ℤ × ℤ) :
    nuniqueEnMes (df ++ [x]) m = nuniqueEnMes df m := by
  unfold nuniqueEnMes
  rw [List.filter_append]
  by_cases hm : x.mes = m
  · simp [hm, hx, List.filterMap_append]
  · simp [hm, hx]

theorem nuniqueEnMes_ausente (df : List Registro) (m : ℤ × ℤ)
    (hm : m ∉ df.map (fun r => r.mes)) : nuniqueEnMes df m = 0 := by
  unfold nuniqueEnMes
  have hnil : df.filter (fun r => decide (r.mes = m)) = [] := by
    refine List.filter_eq_nil_iff.mpr fun a ha => ?_
    simp only [decide_eq_true_eq]
    exact fun hh => hm (hh ▸ List.mem_map_of_mem _ ha)
  simp [hnil]

theorem conteoEn_map (ms : List (ℤ × ℤ)) (g : ℤ × ℤ → ℕ) (m : ℤ × ℤ) :
    conteoEn (ms.map (fun x => (x, g x))) m = if m ∈ ms then g m else 0 := by
  induction ms with
  | nil => simp [conteoEn]
  | cons a t ih =>
    by_cases h : a = m
    · subst h
      simp [conteoEn, List.find?]
    · have hd : decide ((a, g a).1 = m) = false :=
        decide_eq_false (by simpa using h)
      have h' : (m = a) = False := eq_false fun hh => h hh.symm
      simp only [List.map_cons, conteoEn, List.find?, hd] at ih ⊢
      rw [ih]
      simp [List.mem_cons, h']

/-- C5: a row whose media name does not match `clienteN` gets a null derived
client id, still counts toward the ungrouped totals (total play count and
total duration in seconds), and is excluded from every per-client grouped
aggregate: appending such a row changes no per-client play count, frequency,
version count or summed duration, leaves the distinct-client count as it
was, and changes no month's distinct-client count. -/
theorem fila_no_atribuida (df : List Registro) (config : Config) (hoy : ℤ)
    (r : Registro) (hr : extraerCliente r.mediaName = none) :
    (derivar r).cliente = none
    ∧ totalReproducciones (procesar_datos (df ++ [r]) config hoy none).df =
        totalReproducciones (procesar_datos df config hoy none).df + 1
    ∧ totalSegundos (procesar_datos (df ++ [r]) config hoy none).df =
        totalSegundos (procesar_datos df config hoy none).df +
          r.mediaDurationMs / 1000
    ∧ (procesar_datos (df ++ [r]) config hoy none).clientesUnicos =
        (procesar_datos df config hoy none).clientesUnicos
    ∧ (procesar_datos (df ++ [r]) config hoy none).campanas =
        (procesar_datos df config hoy none).campanas
    ∧ (procesar_datos (df ++ [r]) config hoy none).frecuenciaClientes =
        (procesar_datos df config hoy none).frecuenciaClientes
    ∧ (procesar_datos (df ++ [r]) config hoy none).topClientes =
        (procesar_datos df config hoy none).topClientes
    ∧ (procesar_datos (df ++ [r]) config hoy none).versionesPorCliente =
        (procesar_datos df config hoy none).versionesPorCliente
    ∧ (procesar_datos (df ++ [r]) config hoy none).tiempoPorCliente =
        (procesar_datos df config hoy none).tiempoPorCliente
    ∧ ∀ m,
        conteoEn (procesar_datos (df ++ [r]) config hoy none).clientesPorMes
          m =
        conteoEn (procesar_datos df config hoy none).clientesPorMes m := by
  have hx : (derivar r).cliente = none := by simp [derivar, hr]
  have hmap : (df ++ [r]).map derivar =
      df.map derivar ++ [derivar r] := by simp
  rw [procesar_eq_pnv (df ++ [r]) config hoy, procesar_eq_pnv df config hoy,
    hmap]
  have hcl : clientesDe (df.map derivar ++ [derivar r]) =
      clientesDe (df.map derivar) := by
    unfold clientesDe
    rw [filterMap_cliente_append _ _ hx]
  have hcamp : (procesarNoVacio (df.map derivar ++ [derivar r]) config
      hoy).campanas = (procesarNoVacio (df.map derivar) config hoy).campanas := by
    rw [pnv_campanas, pnv_campanas, hcl]
    exact List.map_congr_left fun c _ => by
      rw [filter_cliente_append _ _ hx c]
  refine ⟨hx, ?_, ?_, ?_, hcamp, ?_, ?_, ?_, ?_, ?_⟩
  · simp [pnv_df, totalReproducciones]
  · simp [pnv_df, totalSegundos, derivar]
  · simp [pnv_clientesUnicos, hcl]
  · rw [pnv_frecuencia, pnv_frecuencia, hcl]
    exact List.map_congr_left fun c _ => by
      rw [filter_cliente_append _ _ hx c]
  · rw [pnv_top, pnv_top, hcamp]
  · rw [pnv_versiones, pnv_versiones, hcl]
    exact List.map_congr_left fun c _ => by
      rw [filter_cliente_append _ _ hx c]
  · rw [pnv_tiempo, pnv_tiempo, hcl]
    exact List.map_congr_left fun c _ => by
      rw [filter_cliente_append _ _ hx c]
  · intro m
    rw [pnv_clientesPorMes, pnv_clientesPorMes, conteoEn_map, conteoEn_map,
      nuniqueEnMes_append _ _ hx]
    simp only [List.mem_dedup]
    by_cases hm : m ∈ (df.map derivar).map (fun r => r.mes)
    · have hm2 : m ∈ (df.map derivar ++ [derivar r]).map (fun r => r.mes) := by
        rw [List.map_append]
        exact List.mem_append_left _ hm
      rw [if_pos hm2, if_pos hm]
    · rw [if_neg hm]
      by_cases hm2 : m ∈ (df.map derivar ++ [derivar r]).map (fun r => r.mes)
      · rw [if_pos hm2, nuniqueEnMes_ausente _ m hm]
      · rw [if_neg hm2]

theorem fila_no_atribuida_witness :
    totalReproducciones
        (procesar_datos (dfCliente1 ++ [regPromo]) [] 0 none).df =
      totalReproducciones (procesar_datos dfCliente1 [] 0 none).df + 1
    ∧ (procesar_datos (dfCliente1 ++ [regPromo]) [] 0 none).campanas =
      (procesar_datos dfCliente1 [] 0 none).campanas :=
  ⟨(fila_no_atribuida dfCliente1 [] 0 regPromo (by decide)).2.1,
   (fila_no_atribuida dfCliente1 [] 0 regPromo (by decide)).2.2.2.2.1⟩

end Dashboard
